import Mathlib

/-
Verification of the weather.gov fetch-and-normalize pipeline
(src/i3pystatus/weather/weathergov.py) against its specification.

Shallow embedding conventions:
* Python exceptions are modelled by the inductive `PyExc`; code that can raise
  returns `Except PyExc _`.  The body of `check_weather` (which mutates
  `self.data` in place) returns `Except (PyExc × Data) Data`: a raised
  exception carries the contents of `self.data` at the moment of the raise, so
  the catch-all at line 248 can be modelled faithfully.
* Python numbers are modelled by `PyNum` (int or float); floats are idealized
  as exact rationals (no NaN/Inf/rounding of binary floats).  Decoded JSON is
  modelled by `JValue`.
* Logging calls are side effects with no influence on the observable record
  and are not modelled.
-/

namespace Weathergov

/-- Python exception kinds that the modelled code can raise. -/
inductive PyExc where
  | typeError
  | nameError
  | keyError
  | valueError
  | attributeError
  | unicodeDecodeError
deriving DecidableEq

/-- Python numbers: json.loads produces int for integer literals and float
otherwise; arithmetic mixing the two produces float. -/
inductive PyNum where
  | int (n : ℤ)
  | float (q : ℚ)
deriving DecidableEq

def PyNum.toRat : PyNum → ℚ
  | .int n => (n : ℚ)
  | .float q => q

/-- Decoded JSON values (the shapes relevant to this API: objects, strings,
numbers, null). -/
inductive JValue where
  | null
  | num (n : PyNum)
  | str (s : String)
  | obj (fields : List (String × JValue))

/-- Python round() at integer precision: round half to even.  round of an int
returns the int itself. -/
def roundHalfEven (q : ℚ) : ℤ :=
  if q - ⌊q⌋ < 1/2 then ⌊q⌋
  else if q - ⌊q⌋ > 1/2 then ⌊q⌋ + 1
  else if ⌊q⌋ % 2 = 0 then ⌊q⌋ else ⌊q⌋ + 1

def pyRoundInt : PyNum → ℤ
  | .int n => n
  | .float q => roundHalfEven q

/-- Python round(x): returns an int. -/
def pyRound0 (n : PyNum) : PyNum := .int (pyRoundInt n)

/-- Python round(x, 1): int is returned unchanged, float is rounded (half to
even) at one decimal. -/
def round1 (q : ℚ) : ℚ := (roundHalfEven (q * 10) : ℚ) / 10

/-- Fractional decimal digits of a nonnegative rational below 1, at most
`fuel` of them, stopping when the remainder is exhausted. -/
def fracDigits : ℚ → Nat → List Nat
  | _, 0 => []
  | q, Nat.succ n =>
    if q = 0 then []
    else (⌊q * 10⌋).toNat :: fracDigits (q * 10 - ⌊q * 10⌋) n

/-- Python str() of a float, idealized on the exact-rational model: sign,
integer part, a dot, then the fractional digits (at least one). -/
def strFloat (q : ℚ) : String :=
  let sign := if q < 0 then "-" else ""
  let a := |q|
  let ds := fracDigits (a - ⌊a⌋) 17
  let frac := if ds.isEmpty then "0" else String.join (ds.map (fun d => toString d))
  sign ++ toString (⌊a⌋.toNat) ++ "." ++ frac

/-- Python str() applied to a JSON-derived value: str(None) is "None",
strings pass through, ints and floats print their decimal form.  The repr of
a dict is abbreviated (never reached by any theorem below). -/
def pyStrJ : JValue → String
  | .null => "None"
  | .num (.int n) => toString n
  | .num (.float q) => strFloat q
  | .str s => s
  | .obj _ => "(dict)"

/-- Python dict.get(k, default) called on a decoded JSON value: on a non-dict
receiver the attribute access raises AttributeError. -/
def pyGet (v : JValue) (k : String) (dflt : JValue) : Except PyExc JValue :=
  match v with
  | .obj fs => .ok ((fs.lookup k).getD dflt)
  | _ => .error .attributeError

/-- Python subscript v[k] on a decoded JSON value: KeyError when the key is
missing from a dict, TypeError when the receiver is not a dict. -/
def pyGetItem (v : JValue) (k : String) : Except PyExc JValue :=
  match v with
  | .obj fs =>
    match fs.lookup k with
    | some x => .ok x
    | none => .error .keyError
  | _ => .error .typeError

/-- The chain observed.get(k, \x7b\x7d).get("value") used for every raw
numeric field (lines 171-193 and 245): a missing field or missing nested
value yields null rather than an error; a non-dict nested value raises
AttributeError. -/
def pyGetValue (observed : JValue) (k : String) : Except PyExc JValue :=
  match pyGet observed k (.obj []) with
  | .error e => .error e
  | .ok v => pyGet v "value" .null

/-- Python x % m for a positive int constant m (line 182): TypeError unless x
is a number; the result has the sign of the divisor. -/
def pyMod (v : JValue) (m : ℤ) : Except PyExc PyNum :=
  match v with
  | .num (.int a) => .ok (.int (a % m))
  | .num (.float q) => .ok (.float (q - m * ⌊q / (m : ℚ)⌋))
  | _ => .error .typeError

/-- Python true division of a number by a numeric constant: always a float. -/
def pyDivN (n : PyNum) (c : ℚ) : PyNum := .float (n.toRat / c)

/-- Python x / c on a JSON-derived value: TypeError unless x is a number
(in particular None / c raises TypeError). -/
def pyDivJ (v : JValue) (c : ℚ) : Except PyExc PyNum :=
  match v with
  | .num n => .ok (pyDivN n c)
  | _ => .error .typeError

/-- Python round(x) on a JSON-derived value: TypeError unless x is a number. -/
def pyRoundJ (v : JValue) : Except PyExc PyNum :=
  match v with
  | .num n => .ok (pyRound0 n)
  | _ => .error .typeError

/-- Python round(x, 1) on a JSON-derived value (line 215). -/
def pyRound1J (v : JValue) : Except PyExc PyNum :=
  match v with
  | .num (.int n) => .ok (.int n)
  | .num (.float q) => .ok (.float (round1 q))
  | _ => .error .typeError

/-- Line 117: def toFahrenheit(self, value): return (value * 1.8) + 32.
Multiplying a non-number (None, str, dict) by the float 1.8 raises
TypeError; a number yields a float. -/
def toFahrenheit (v : JValue) : Except PyExc PyNum :=
  match v with
  | .num n => .ok (.float (n.toRat * (1.8 : ℚ) + 32))
  | _ => .error .typeError

/-- Line 180 creates a Python set literal (curly braces, not a tuple or
list); the duplicated "N" collapses, leaving these eight elements. -/
def directions : List String := ["N", "NE", "E", "SE", "S", "SW", "W", "NW"]

/-- Line 183 subscripts that set.  Python set objects define no item access,
so the subscript raises TypeError for every set and every index. -/
def pySetGetItem (_s : List String) (_i : ℤ) : Except PyExc String :=
  .error .typeError

/-- Idealized model of datetime.fromisoformat (line 167): accepts strings
shaped like an ISO date YYYY-MM-DD optionally followed by a "T..." time part;
raises ValueError on other strings (in particular the "" default) and
TypeError on non-strings.  Only its success or failure is observable: the
parse sits inside try/except-pass, and its result is represented by the
accepted string. -/
def isoLike (s : String) : Bool :=
  match s.toList with
  | y1 :: y2 :: y3 :: y4 :: c1 :: m1 :: m2 :: c2 :: d1 :: d2 :: rest =>
    y1.isDigit && y2.isDigit && y3.isDigit && y4.isDigit
      && (c1 == '-') && m1.isDigit && m2.isDigit && (c2 == '-')
      && d1.isDigit && d2.isDigit
      && (rest.isEmpty || rest.head? == some 'T')
  | _ => false

def fromisoformat (v : JValue) : Except PyExc String :=
  match v with
  | .str s => if isoLike s then .ok s else .error .valueError
  | _ => .error .typeError

/-- Configuration of the Weathergov backend.  Per the settings declaration
(lines 92-97) the host-configurable settings are station_code, units and
update_error; location_code is not among them and keeps its class default
None unless something outside the declared interface sets it (lines 98-102).
Defaults: units "metric", update_error "!". -/
structure Config where
  station_code : Option String
  location_code : Option String
  units : String
  update_error : String
deriving DecidableEq

/-- Line 104/114: the request URL, built once at init by formatting the URL
template with the instance attributes; a missing station_code attribute makes
str.format raise KeyError. -/
def forecast_url (cfg : Config) : Except PyExc String :=
  match cfg.station_code with
  | some c =>
    .ok ("https://api.weather.gov/stations/" ++ c ++ "/observations/latest?require_qc=false")
  | none => .error .keyError

/-- The persisted output record self.data, mutated field by field each cycle
(lines 226-254).  observation_time holds the parsed timestamp (a datetime in
the source, represented here by the accepted string). -/
structure Data where
  text_description : String := ""
  observation_time : Option String := none
  current_temp : String := ""
  high_temp : String := ""
  low_temp : String := ""
  dewpoint : String := ""
  temp_unit : String := ""
  wind_direction : String := ""
  wind_speed : String := ""
  wind_gust : String := ""
  wind_unit : String := ""
  pressure : String := ""
  pressure_unit : String := ""
  visibility : String := ""
  visibility_unit : String := ""
  humidity : String := ""
  heat_index : String := ""
  update_error : String := ""
deriving DecidableEq

/-- Response body of the HTTP GET, as relevant to load_json (lines 44-51):
bytes that decode to JSON, bytes that raise JSONDecodeError, or bytes that
fail text decoding (UnicodeDecodeError, which json.loads raises and which is
not a JSONDecodeError). -/
inductive Body where
  | json (v : JValue)
  | malformed
  | invalidUnicode

/-- Outcome of requests.get (line 29): a transport-level exception, or a
response with a status code and a body. -/
inductive HttpResult where
  | exc
  | response (status : Nat) (body : Body)

/-- Lines 44-51: load_json catches only json.decoder.JSONDecodeError (and
then returns None); a UnicodeDecodeError from json.loads propagates. -/
def load_json : Body → Except PyExc (Option JValue)
  | .json v => .ok (some v)
  | .malformed => .ok none
  | .invalidUnicode => .error .unicodeDecodeError

/-- Lines 19-42: get_weather_data.  Inside try: perform the GET; on a status
other than 200 return None (weather_data stays None); otherwise decode.  The
except at line 38 catches any exception (transport failure, or an exception
escaping load_json), logs it, and falls through returning None. -/
def get_weather_data : HttpResult → Option JValue
  | .exc => none
  | .response status body =>
    if status ≠ 200 then none
    else
      match load_json body with
      | .ok v => v
      | .error _ => none

/-- Sequencing of a value-level step inside the check_weather body: a raised
exception aborts the body, carrying the current contents of self.data for the
catch-all at line 248. -/
def andThenD {α : Type} (d : Data) (x : Except PyExc α)
    (f : α → Except (PyExc × Data) Data) : Except (PyExc × Data) Data :=
  match x with
  | .error e => .error (e, d)
  | .ok a => f a

/-- Result of the unit-conversion branch (lines 195-224), before the writes. -/
structure Conv where
  current_temp : JValue
  high_temp : JValue
  low_temp : JValue
  dewpoint : JValue
  heat_index : JValue
  temp_unit : String
  wind_speed : JValue
  wind_gust : Option JValue
  wind_unit : String
  pressure : JValue
  pressure_unit : String
  visibility : JValue
  visibility_unit : String

/-- Value-level sequencing for the conversion block. -/
def andThenE {α β : Type} (x : Except PyExc α) (f : α → Except PyExc β) :
    Except PyExc β :=
  match x with
  | .error e => .error e
  | .ok a => f a

/-- Lines 195-224: the unit-conversion branch.  In the imperial branch each
conversion raises TypeError when its raw value is null (or otherwise not a
number); the wind-gust conversion runs only when the raw gust is not None.
In the metric branch the temperatures pass through unconverted (even null). -/
def convertUnits (units : String) (current_tempC high_tempC low_tempC dewpointC
    heat_indexC wind_speedKPH wind_gustKPH pressurePa visibilityM : JValue) :
    Except PyExc Conv :=
  if units == "imperial" then
    andThenE (toFahrenheit current_tempC) fun current_temp =>
    andThenE (toFahrenheit high_tempC) fun high_temp =>
    andThenE (toFahrenheit low_tempC) fun low_temp =>
    andThenE (toFahrenheit dewpointC) fun dewpoint =>
    andThenE (toFahrenheit heat_indexC) fun heat_index =>
    andThenE (pyDivJ wind_speedKPH (1.609 : ℚ)) fun ws =>
    andThenE (match wind_gustKPH with
      | .null => .ok none
      | v => andThenE (pyDivJ v (1.609 : ℚ)) fun g => .ok (some (pyRound0 g)))
      fun wind_gust =>
    andThenE (pyDivJ pressurePa (3386 : ℚ)) fun pr =>
    andThenE (pyDivJ visibilityM (1609 : ℚ)) fun vi =>
    .ok {
      current_temp := .num current_temp
      high_temp := .num high_temp
      low_temp := .num low_temp
      dewpoint := .num dewpoint
      heat_index := .num heat_index
      temp_unit := "°F"
      wind_speed := .num (pyRound0 ws)
      wind_gust := wind_gust.map (fun g => .num g)
      wind_unit := "mph"
      pressure := .num (pyRound0 pr)
      pressure_unit := "in"
      visibility := .num (pyRound0 vi)
      visibility_unit := "mi" }
  else
    andThenE (pyRound1J heat_indexC) fun heat_index =>
    andThenE (pyRoundJ wind_speedKPH) fun wind_speed =>
    andThenE (match wind_gustKPH with
      | .null => .ok none
      | v => andThenE (pyRoundJ v) fun g => .ok (some g)) fun wind_gust =>
    andThenE (pyDivJ pressurePa (100 : ℚ)) fun pr =>
    andThenE (pyDivJ visibilityM (1000 : ℚ)) fun vi =>
    .ok {
      current_temp := current_tempC
      high_temp := high_tempC
      low_temp := low_tempC
      dewpoint := dewpointC
      heat_index := .num heat_index
      temp_unit := "°C"
      wind_speed := .num wind_speed
      wind_gust := wind_gust.map (fun g => .num g)
      wind_unit := "kph"
      pressure := .num (pyRound0 pr)
      pressure_unit := "mb"
      visibility := .num (pyRound0 vi)
      visibility_unit := "km" }

/-- Lines 226-246: the field-by-field writes to self.data, in source order.
Line 228 reads the local observation_time, which was never bound when the
parse at line 167 failed: that read raises NameError.  Line 245 extracts and
rounds the humidity inline: a null value raises TypeError there, after the
earlier fields were already written. -/
def writeData (d : Data) (observed : JValue) (observation_time : Option String)
    (wind_direction : String) (wind_gustKPH : JValue) (c : Conv) :
    Except (PyExc × Data) Data :=
  andThenD d (pyGet observed "textDescription" .null) fun td =>
  let d1 := { d with text_description := pyStrJ td }
  andThenD d1 (match observation_time with
    | some t => (.ok t : Except PyExc String)
    | none => .error .nameError) fun obst =>
  let d2 := { d1 with observation_time := some obst }
  let d3 := { d2 with current_temp := pyStrJ c.current_temp }
  let d4 := { d3 with high_temp := pyStrJ c.high_temp }
  let d5 := { d4 with low_temp := pyStrJ c.low_temp }
  let d6 := { d5 with dewpoint := pyStrJ c.dewpoint }
  let d7 := { d6 with temp_unit := c.temp_unit }
  let d8 := { d7 with wind_direction := wind_direction }
  let d9 := { d8 with wind_speed := pyStrJ c.wind_speed }
  andThenD d9 (match wind_gustKPH with
    | .null => (.ok "" : Except PyExc String)
    | _ =>
      match c.wind_gust with
      | some g => .ok (pyStrJ g)
      | none => .error .nameError) fun gustStr =>
  let d10 := { d9 with wind_gust := gustStr }
  let d11 := { d10 with wind_unit := c.wind_unit }
  let d12 := { d11 with pressure := pyStrJ c.pressure }
  let d13 := { d12 with pressure_unit := c.pressure_unit }
  let d14 := { d13 with visibility := pyStrJ c.visibility }
  let d15 := { d14 with visibility_unit := c.visibility_unit }
  andThenD d15 (pyGetValue observed "relativeHumidity") fun hv =>
  andThenD d15 (pyRoundJ hv) fun hr =>
  let d16 := { d15 with humidity := pyStrJ (.num hr) ++ "%" }
  let d17 := { d16 with heat_index := pyStrJ c.heat_index }
  .ok d17

/-- Lines 164-246: processing of the extracted properties object, in source
order: the swallowed timestamp parse (166-169), the defensive raw-field
extraction (171-193), the wind-direction derivation (179-183), the unit
conversion (195-224) and the writes (226-246). -/
def processObserved (cfg : Config) (d : Data) (observed : JValue) :
    Except (PyExc × Data) Data :=
  let observation_time : Option String :=
    (andThenE (pyGet observed "timestamp" (.str "")) fromisoformat).toOption
  andThenD d (pyGetValue observed "temperature") fun current_tempC =>
  let high_tempC : JValue := .num (.int 0)
  let low_tempC : JValue := .num (.int 0)
  andThenD d (pyGetValue observed "dewpoint") fun dewpointC =>
  andThenD d (pyGetValue observed "windDirection") fun wind_deg =>
  andThenD d (pyMod wind_deg 360) fun m =>
  andThenD d (pySetGetItem directions (pyRoundInt (pyDivN m 45)))
    fun wind_direction =>
  andThenD d (pyGetValue observed "windSpeed") fun wind_speedKPH =>
  andThenD d (pyGetValue observed "windGust") fun wind_gustKPH =>
  andThenD d (pyGetValue observed "barometricPressure") fun pressurePa =>
  andThenD d (pyGetValue observed "visibility") fun visibilityM =>
  andThenD d (pyGetValue observed "heatIndex") fun heat_indexC =>
  andThenD d (convertUnits cfg.units current_tempC high_tempC low_tempC
    dewpointC heat_indexC wind_speedKPH wind_gustKPH pressurePa visibilityM)
    fun c =>
  writeData d observed observation_time wind_direction wind_gustKPH c

/-- Lines 145-246 (the body of the try at line 144): inspect weather_data
(146-152, early return with the marker when it is None); extract the
properties key under a try catching only KeyError (154-162, early return with
the marker); otherwise process the observation.  Any other exception
propagates to the catch-all, carrying the data written so far. -/
def innerTry (cfg : Config) (d : Data) (weather_data : Option JValue) :
    Except (PyExc × Data) Data :=
  match weather_data with
  | none => .ok { d with update_error := cfg.update_error }
  | some wd =>
    match pyGetItem wd "properties" with
    | .ok observed => processObserved cfg d observed
    | .error .keyError => .ok { d with update_error := cfg.update_error }
    | .error e => .error (e, d)

/-- Lines 121-254: check_weather.  Guard on units (126-133), guard on
location_code (135-142) — each failing guard sets the marker and returns
before the fetch; net effect of the passing guards is clearing the marker.
Then the try at line 144: fetch, process; the except at line 248 catches any
exception and sets the marker on the data as already written.  The Bool
records whether the fetch (line 145) was reached; the Except layer records
whether the method raised past its boundary (no branch does). -/
def check_weather (cfg : Config) (d : Data) (http : HttpResult) :
    Except PyExc (Data × Bool) :=
  if cfg.units == "imperial" || cfg.units == "metric" then
    match cfg.location_code with
    | none => .ok ({ d with update_error := cfg.update_error }, false)
    | some _ =>
      match innerTry cfg { d with update_error := "" } (get_weather_data http) with
      | .ok dOut => .ok (dOut, true)
      | .error (_, dAt) => .ok ({ dAt with update_error := cfg.update_error }, true)
  else
    .ok ({ d with update_error := cfg.update_error }, false)

/-- Whether a cycle with this configuration reaches the fetch at line 145. -/
def fetchAttempted (cfg : Config) : Bool :=
  (cfg.units == "imperial" || cfg.units == "metric") && cfg.location_code.isSome

/-- Equality of all OutputRecord fields other than update_error. -/
def otherFieldsEq (a b : Data) : Prop :=
  a.text_description = b.text_description ∧
  a.observation_time = b.observation_time ∧
  a.current_temp = b.current_temp ∧
  a.high_temp = b.high_temp ∧
  a.low_temp = b.low_temp ∧
  a.dewpoint = b.dewpoint ∧
  a.temp_unit = b.temp_unit ∧
  a.wind_direction = b.wind_direction ∧
  a.wind_speed = b.wind_speed ∧
  a.wind_gust = b.wind_gust ∧
  a.wind_unit = b.wind_unit ∧
  a.pressure = b.pressure ∧
  a.pressure_unit = b.pressure_unit ∧
  a.visibility = b.visibility ∧
  a.visibility_unit = b.visibility_unit ∧
  a.humidity = b.humidity ∧
  a.heat_index = b.heat_index

/-! Concrete fixtures used to evaluate the pipeline. -/

/-- A 200 response whose decoded JSON carries the given properties object. -/
def mkHttp (obs : JValue) : HttpResult :=
  .response 200 (.json (.obj [("properties", obs)]))

/-- A metric configuration with both the documented station_code setting and
the internally checked location_code attribute present. -/
def cfgMetric : Config :=
  { station_code := some "KNYC", location_code := some "KNYC",
    units := "metric", update_error := "!" }

/-- The imperial variant of cfgMetric. -/
def cfgImperial : Config :=
  { cfgMetric with units := "imperial" }

/-- A configuration exactly as the module docstring example builds it: the
documented station_code setting is provided, location_code (not among the
declared settings) keeps its class default None. -/
def cfgStationOnly : Config :=
  { station_code := some "KNYC", location_code := none,
    units := "metric", update_error := "!" }

/-- A configuration whose units value is outside the allowed pair. -/
def cfgBadUnits : Config :=
  { cfgMetric with units := "bogus" }

/-- An output record carrying recognizable values from a previous cycle. -/
def dataPrev : Data :=
  { current_temp := "stale", wind_gust := "stale", wind_direction := "stale",
    pressure := "stale", observation_time := some "2020-01-01" }

/-- A complete observation with windDirection 0 degrees, a valid timestamp
and a null wind gust. -/
def obsDeg0 : JValue := .obj [
  ("timestamp", .str "2024-01-01T00:00:00+00:00"),
  ("textDescription", .str "Cloudy"),
  ("temperature", .obj [("value", .num (.float 5))]),
  ("dewpoint", .obj [("value", .num (.float 2))]),
  ("windDirection", .obj [("value", .num (.int 0))]),
  ("windSpeed", .obj [("value", .num (.float 10))]),
  ("windGust", .obj [("value", .null)]),
  ("barometricPressure", .obj [("value", .num (.int 101320))]),
  ("visibility", .obj [("value", .num (.int 16000))]),
  ("heatIndex", .obj [("value", .num (.float 30))]),
  ("relativeHumidity", .obj [("value", .num (.float 50))])]

/-- obsDeg0 with an unparsable timestamp, all else identical. -/
def obsBadTs : JValue := .obj [
  ("timestamp", .str "not-a-timestamp"),
  ("textDescription", .str "Cloudy"),
  ("temperature", .obj [("value", .num (.float 5))]),
  ("dewpoint", .obj [("value", .num (.float 2))]),
  ("windDirection", .obj [("value", .num (.int 0))]),
  ("windSpeed", .obj [("value", .num (.float 10))]),
  ("windGust", .obj [("value", .null)]),
  ("barometricPressure", .obj [("value", .num (.int 101320))]),
  ("visibility", .obj [("value", .num (.int 16000))]),
  ("heatIndex", .obj [("value", .num (.float 30))]),
  ("relativeHumidity", .obj [("value", .num (.float 50))])]

/-- The end-to-end observation of claim C8: temperature 20 (a JSON integer)
and barometric pressure 101320 Pa, all other fields present. -/
def obsC8 : JValue := .obj [
  ("timestamp", .str "2024-01-01T00:00:00+00:00"),
  ("textDescription", .str "Sunny"),
  ("temperature", .obj [("value", .num (.int 20))]),
  ("dewpoint", .obj [("value", .num (.float 2))]),
  ("windDirection", .obj [("value", .num (.int 0))]),
  ("windSpeed", .obj [("value", .num (.float 10))]),
  ("windGust", .obj [("value", .null)]),
  ("barometricPressure", .obj [("value", .num (.int 101320))]),
  ("visibility", .obj [("value", .num (.int 16000))]),
  ("heatIndex", .obj [("value", .num (.float 30))]),
  ("relativeHumidity", .obj [("value", .num (.float 50))])]

/-- obsDeg0 with a present wind gust of 20 km/h. -/
def obsGust20 : JValue := .obj [
  ("timestamp", .str "2024-01-01T00:00:00+00:00"),
  ("textDescription", .str "Cloudy"),
  ("temperature", .obj [("value", .num (.float 5))]),
  ("dewpoint", .obj [("value", .num (.float 2))]),
  ("windDirection", .obj [("value", .num (.int 0))]),
  ("windSpeed", .obj [("value", .num (.float 10))]),
  ("windGust", .obj [("value", .num (.int 20))]),
  ("barometricPressure", .obj [("value", .num (.int 101320))]),
  ("visibility", .obj [("value", .num (.int 16000))]),
  ("heatIndex", .obj [("value", .num (.float 30))]),
  ("relativeHumidity", .obj [("value", .num (.float 50))])]

/-! Helper lemmas. -/

/-- Every run of processObserved raises: extraction of temperature, dewpoint
or wind direction may raise first, and otherwise the subscript of the
directions set at line 183 raises TypeError; no write to the record happens
before the raise, so the carried data is the input data. -/
theorem processObserved_err (cfg : Config) (d : Data) (obs : JValue) :
    ∃ e, processObserved cfg d obs = .error (e, d) := by
  cases h1 : pyGetValue obs "temperature" with
  | error e => exact ⟨e, by simp [processObserved, andThenD, h1]⟩
  | ok v1 =>
    cases h2 : pyGetValue obs "dewpoint" with
    | error e => exact ⟨e, by simp [processObserved, andThenD, h1, h2]⟩
    | ok v2 =>
      cases h3 : pyGetValue obs "windDirection" with
      | error e => exact ⟨e, by simp [processObserved, andThenD, h1, h2, h3]⟩
      | ok v3 =>
        cases h4 : pyMod v3 360 with
        | error e => exact ⟨e, by simp [processObserved, andThenD, h1, h2, h3, h4]⟩
        | ok m =>
          exact ⟨.typeError,
            by simp [processObserved, andThenD, h1, h2, h3, h4, pySetGetItem]⟩

/-- The try body either returns the record with the marker set (fetch
returned None, or the properties key was missing) or raises carrying the
unmodified record. -/
theorem innerTry_cases (cfg : Config) (d : Data) (wd : Option JValue) :
    innerTry cfg d wd = .ok { d with update_error := cfg.update_error } ∨
      ∃ e, innerTry cfg d wd = .error (e, d) := by
  cases wd with
  | none => left; rfl
  | some v =>
    cases hp : pyGetItem v "properties" with
    | ok obs =>
      right
      obtain ⟨e, he⟩ := processObserved_err cfg d obs
      exact ⟨e, by simp [innerTry, hp, he]⟩
    | error e =>
      cases e
      case keyError => left; simp [innerTry, hp]
      case typeError => exact Or.inr ⟨.typeError, by simp [innerTry, hp]⟩
      case nameError => exact Or.inr ⟨.nameError, by simp [innerTry, hp]⟩
      case valueError => exact Or.inr ⟨.valueError, by simp [innerTry, hp]⟩
      case attributeError =>
        exact Or.inr ⟨.attributeError, by simp [innerTry, hp]⟩
      case unicodeDecodeError =>
        exact Or.inr ⟨.unicodeDecodeError, by simp [innerTry, hp]⟩

/-- Net effect of one check_weather cycle, for every configuration, previous
record and fetch outcome: the record comes back with update_error set to the
configured marker and every other field untouched, and the fetch is reached
exactly when both configuration guards pass. -/
theorem check_weather_spec (cfg : Config) (d : Data) (http : HttpResult) :
    check_weather cfg d http =
      .ok ({ d with update_error := cfg.update_error }, fetchAttempted cfg) := by
  by_cases hu : (cfg.units == "imperial" || cfg.units == "metric") = true
  · cases hl : cfg.location_code with
    | none => simp [check_weather, fetchAttempted, hu, hl]
    | some s =>
      rcases innerTry_cases cfg { d with update_error := "" }
          (get_weather_data http) with h | ⟨e, h⟩ <;>
        simp [check_weather, fetchAttempted, hu, hl, h]
  · simp [check_weather, fetchAttempted, hu]

/-! Claim theorems. -/

/-- Claim C1: the spec says normalize derives the compass label from the wind
degrees (0 maps to "N", with no out-of-range lookup error for any degree in
the range 0 to 360).  The code instead builds directions as a Python set
literal (line 180) and subscripts it (line 183): the subscript raises
TypeError for every index, so for an observation with windDirection 0 the
cycle ends with update_error set and wind_direction never written — the claim
fails on the code, a slip contradicting the documented intent. -/
theorem claim_c1_wind_direction :
    (∀ i : ℤ, pySetGetItem directions i = .error .typeError)
    ∧ check_weather cfgMetric dataPrev (mkHttp obsDeg0) =
        .ok ({ dataPrev with update_error := "!" }, true)
    ∧ ({ dataPrev with update_error := "!" } : Data).wind_direction ≠ "N" :=
  ⟨fun _ => rfl, by rfl, by decide⟩

/-- Claim C2: after any single cycle, update_error is non-empty (it always
equals the configured marker, assumed non-empty) if and only if no other
field was populated from that fetch; and every other field retains its value
from the previous cycle. -/
theorem claim_c2_update_error_invariant (cfg : Config) (d : Data)
    (http : HttpResult) (h : cfg.update_error ≠ "") :
    ∃ dOut b, check_weather cfg d http = .ok (dOut, b)
      ∧ (dOut.update_error ≠ "" ↔ otherFieldsEq d dOut)
      ∧ otherFieldsEq d dOut
      ∧ dOut.update_error = cfg.update_error := by
  refine ⟨{ d with update_error := cfg.update_error }, fetchAttempted cfg,
    check_weather_spec cfg d http, ?_, ?_, rfl⟩
  · constructor
    · intro _
      simp [otherFieldsEq]
    · intro _
      exact h
  · simp [otherFieldsEq]

/-- Witness for claim C2 at a concrete configuration, record and transport
failure. -/
theorem claim_c2_update_error_invariant_w :
    ∃ dOut b, check_weather cfgMetric dataPrev .exc = .ok (dOut, b)
      ∧ (dOut.update_error ≠ "" ↔ otherFieldsEq dataPrev dOut)
      ∧ otherFieldsEq dataPrev dOut
      ∧ dOut.update_error = cfgMetric.update_error :=
  claim_c2_update_error_invariant cfgMetric dataPrev .exc (by decide)

/-- Claim C3: the spec says a missing or invalid timestamp is silently
skipped and the cycle continues through extraction, conversion and output
writing.  The parse failure itself is indeed swallowed (first conjunct, and
the final record does not depend on the timestamp at all — third conjunct),
but the cycle never continues through conversion and output writing: it
aborts at the wind-direction set subscript with update_error set and no field
written (second conjunct), so the claim fails on the code. -/
theorem claim_c3_timestamp_skip :
    fromisoformat (.str "not-a-timestamp") = .error .valueError
    ∧ check_weather cfgMetric dataPrev (mkHttp obsBadTs) =
        .ok ({ dataPrev with update_error := "!" }, true)
    ∧ check_weather cfgMetric dataPrev (mkHttp obsBadTs) =
        check_weather cfgMetric dataPrev (mkHttp obsDeg0) :=
  ⟨rfl, by rfl, by rfl⟩

/-- Claim C4: for every fetch outcome and decoded JSON shape, check_weather
raises nothing past its boundary (second conjunct: every run returns ok), and
whenever the try body raises, the catch-all leaves the record with
update_error set to the configured marker (first conjunct). -/
theorem claim_c4_catch_all (cfg : Config) (d : Data) (http : HttpResult)
    (e : PyExc) (dAt : Data)
    (_h : innerTry cfg { d with update_error := "" } (get_weather_data http) =
      .error (e, dAt)) :
    check_weather cfg d http =
      .ok ({ d with update_error := cfg.update_error }, fetchAttempted cfg)
    ∧ ∀ cfg2 d2 http2, ∃ r, check_weather cfg2 d2 http2 = .ok r :=
  ⟨check_weather_spec cfg d http,
    fun cfg2 d2 http2 => ⟨_, check_weather_spec cfg2 d2 http2⟩⟩

/-- Witness for claim C4: a concrete cycle whose try body raises TypeError at
the direction lookup. -/
theorem claim_c4_catch_all_w :
    check_weather cfgMetric dataPrev (mkHttp obsDeg0) =
      .ok ({ dataPrev with update_error := "!" }, true)
    ∧ ∀ cfg2 d2 http2, ∃ r, check_weather cfg2 d2 http2 = .ok r :=
  claim_c4_catch_all cfgMetric dataPrev (mkHttp obsDeg0) .typeError
    { dataPrev with update_error := "" } (by rfl)

/-- Claim C5: for every configuration whose units value is outside the pair
imperial/metric, check_weather sets update_error to the marker and the result
is the same for every fetch outcome with the fetch flag false: the fetcher is
never invoked. -/
theorem claim_c5_invalid_units (cfg : Config) (d : Data)
    (h1 : cfg.units ≠ "imperial") (h2 : cfg.units ≠ "metric") :
    ∀ http, check_weather cfg d http =
      .ok ({ d with update_error := cfg.update_error }, false) := by
  intro http
  have e1 : (cfg.units == "imperial") = false := beq_eq_false_iff_ne.mpr h1
  have e2 : (cfg.units == "metric") = false := beq_eq_false_iff_ne.mpr h2
  have hf : fetchAttempted cfg = false := by simp [fetchAttempted, e1, e2]
  rw [check_weather_spec cfg d http, hf]

/-- Witness for claim C5 at a concrete bad-units configuration. -/
theorem claim_c5_invalid_units_w :
    check_weather cfgBadUnits dataPrev .exc =
      .ok ({ dataPrev with update_error := "!" }, false) :=
  claim_c5_invalid_units cfgBadUnits dataPrev (by decide) (by decide) .exc

/-- Claim C6: the spec says a configuration providing the station code (with
valid units) passes validation and fetches.  The code guards on the distinct
location_code attribute, which is not among the declared settings and stays
None in the documented configuration shape: with station_code provided and
location_code absent, every cycle sets the marker and never reaches the fetch
(flag false, result independent of the transport), contradicting the module
docstring usage — the claim fails on the code. -/
theorem claim_c6_station_code :
    cfgStationOnly.station_code = some "KNYC"
    ∧ (∀ http, check_weather cfgStationOnly dataPrev http =
        .ok ({ dataPrev with update_error := "!" }, false))
    ∧ fetchAttempted cfgStationOnly = false :=
  ⟨rfl, fun http => check_weather_spec cfgStationOnly dataPrev http, rfl⟩

/-- Claim C7: the fetcher returns None, raising nothing to its caller, on a
transport failure, on any non-200 status, on a 200 body that is not valid
JSON (whether the decode failure is a JSONDecodeError or a unicode decode
failure), and returns the decoded structure on a 200 response with a valid
JSON body. -/
theorem claim_c7_fetch_null (s : Nat) (b : Body) (v : JValue)
    (h : s ≠ 200) :
    get_weather_data .exc = none
    ∧ get_weather_data (.response s b) = none
    ∧ get_weather_data (.response 200 .malformed) = none
    ∧ get_weather_data (.response 200 .invalidUnicode) = none
    ∧ get_weather_data (.response 200 (.json v)) = some v :=
  ⟨rfl, by simp [get_weather_data, h], rfl, rfl, rfl⟩

/-- Witness for claim C7 at status 404, a malformed body and a null JSON
document. -/
theorem claim_c7_fetch_null_w :
    get_weather_data .exc = none
    ∧ get_weather_data (.response 404 .malformed) = none
    ∧ get_weather_data (.response 200 .malformed) = none
    ∧ get_weather_data (.response 200 .invalidUnicode) = none
    ∧ get_weather_data (.response 200 (.json .null)) = some .null :=
  claim_c7_fetch_null 404 .malformed .null (by decide)

/-- Claim C8: the spec says imperial conversion maps temperature 20 C to
current_temp "68.0" and pressure 101320 Pa to "30".  The conversion helpers
do compute those values (first two conjuncts), but normalize never reaches
the conversion: the cycle aborts at the wind-direction set subscript, the
marker is set, and current_temp keeps its previous value (third and fourth
conjuncts), so the end-to-end claim fails on the code. -/
theorem claim_c8_imperial_conversion :
    toFahrenheit (.num (.int 20)) = .ok (.float 68)
    ∧ pyRound0 (.float ((101320 : ℚ) / 3386)) = .int 30
    ∧ check_weather cfgImperial dataPrev (mkHttp obsC8) =
        .ok ({ dataPrev with update_error := "!" }, true)
    ∧ ({ dataPrev with update_error := "!" } : Data).current_temp ≠ "68.0" := by
  refine ⟨?_, ?_, by rfl, by decide⟩
  · simp only [toFahrenheit, PyNum.toRat]
    norm_num
  · have hq : ((101320 : ℚ) / 3386) = 50660 / 1693 := by norm_num
    have hf : (⌊(50660 / 1693 : ℚ)⌋ : ℤ) = 29 := by
      rw [Int.floor_eq_iff]
      norm_num
    simp only [pyRound0, pyRoundInt, roundHalfEven, hq, hf]
    rw [if_neg (by norm_num), if_pos (by norm_num)]
    norm_num

/-- Claim C9: the spec says a null wind gust yields an empty wind_gust field
and a 20 km/h gust in metric mode yields "20".  The rounding helper does
yield 20 (first conjunct), but normalize never reaches the gust logic: with a
present gust of 20 and with a null gust alike, the cycle aborts at the
wind-direction set subscript and wind_gust keeps its previous value, so the
claim fails on the code. -/
theorem claim_c9_wind_gust :
    pyRoundJ (.num (.int 20)) = .ok (.int 20)
    ∧ check_weather cfgMetric dataPrev (mkHttp obsGust20) =
        .ok ({ dataPrev with update_error := "!" }, true)
    ∧ check_weather cfgMetric dataPrev (mkHttp obsDeg0) =
        .ok ({ dataPrev with update_error := "!" }, true)
    ∧ ({ dataPrev with update_error := "!" } : Data).wind_gust = "stale" :=
  ⟨rfl, by rfl, by rfl, rfl⟩

/-- Claim C10: check_weather is a function of the configuration, the previous
record and the fetch outcome (deterministic by construction), and running it
again on its own output with the same fetch outcome reproduces that output
exactly. -/
theorem claim_c10_idempotent (cfg : Config) (d : Data) (http : HttpResult)
    (dOut : Data) (b : Bool)
    (h : check_weather cfg d http = .ok (dOut, b)) :
    check_weather cfg dOut http = .ok (dOut, b) := by
  have hs := check_weather_spec cfg d http
  rw [h] at hs
  simp only [Except.ok.injEq, Prod.mk.injEq] at hs
  obtain ⟨hd, hb⟩ := hs
  subst hd
  subst hb
  exact check_weather_spec cfg { d with update_error := cfg.update_error } http

/-- Witness for claim C10 at a concrete configuration and record. -/
theorem claim_c10_idempotent_w :
    check_weather cfgMetric { dataPrev with update_error := "!" } .exc =
      .ok ({ dataPrev with update_error := "!" }, true) :=
  claim_c10_idempotent cfgMetric dataPrev .exc
    { dataPrev with update_error := "!" } true (by rfl)

end Weathergov
